import Mathlib

/-
Shallow embedding of the meshroom Job lifecycle controller
(src/src/models/Job.cpp) for verification of its specification.

Modelling conventions:
- URLs (QUrl) are represented by their local-file path string
  (`QUrl::toLocalFile`); `QUrl::fromLocalFile` is the identity on that
  representation.
- The filesystem is an explicit record: a list of existing directories, an
  association list from file paths to file contents, and oracle lists naming
  the paths on which `QDir::mkpath` / open-for-write would fail.
- JSON documents written/read by the controller are represented by their
  parsed shape: the job descriptor (`job.json`) by a `JsonDescriptor`
  record mirroring exactly the fields `Job::serializeToJSON` emits, and the
  status worker's report by an association list of `JsonVal`s.  A stored
  file that does not parse as JSON is the `FileData.malformed` constructor.
- `model()->setData(...)` relays (JobModel / ResourceModel glue, whose
  sources are not part of the repository snapshot) are modelled, following
  the spec, as direct updates of the corresponding Job view fields
  (`status`, `completion`, `thumbnail`).
- External worker processes are opaque: their outcomes (normal/abnormal
  exit, parsed stdout) are explicit parameters.
-/

namespace Meshroom

/-- Attribute values as used by the fixed pipeline template: strings
(combo), ints (slider) and string lists (pair selector), mirroring the
QVariants stored by `Job::createDefaultGraph`. -/
inductive Variant where
  | vstr (s : String)
  | vint (n : Int)
  | vstrList (xs : List String)
deriving DecidableEq

/-- Semantics of `QVariant::toList` followed by element-wise string reads,
as used by the pair accessors: a string-list variant yields its elements,
any other variant yields the empty list. -/
def Variant.toStringList : Variant → List String
  | .vstrList xs => xs
  | _ => []

/-- One typed, named parameter of a pipeline step (class `Attribute`). -/
structure Attribute where
  key : String
  name : String
  type : Int
  value : Variant
  options : List String := []
  min : Int := 0
  max : Int := 0
  step : Int := 0
deriving DecidableEq

/-- One named stage of the pipeline owning its attributes (class `Step`). -/
structure Step where
  name : String
  attributes : List Attribute
deriving DecidableEq

/-- JSON value shape for the status worker's report object, with the
`QJsonValue` read conversions the controller uses. -/
inductive JsonVal where
  | num (q : Rat)
  | str (s : String)
  | boolean (b : Bool)
  | jnull
  | undefinedv
deriving DecidableEq

/-- Semantics of `QJsonValue::toDouble` with default 0: numbers yield their
value, everything else yields 0.  Rationals stand in for doubles. -/
def JsonVal.toDouble : JsonVal → Rat
  | .num q => q
  | _ => 0

/-- Semantics of `QJsonValue::toInt` with default 0: a whole-number double
yields it as an integer, everything else yields 0. -/
def JsonVal.toInt : JsonVal → Int
  | .num q => if q.den = 1 then q.num else 0
  | _ => 0

/-- Outcome of a finished status worker process as seen by
`Job::readProcessOutput`: whether the exit status was `QProcess::NormalExit`
and, on normal exit, the stdout parsed as a JSON object (`none` when
`QJsonDocument::fromJson` reports a parse error). -/
structure ProcOutcome where
  normalExit : Bool
  stdout : Option (List (String × JsonVal))

/-- Parsed shape of the `job.json` descriptor, mirroring exactly the object
built by `Job::serializeToJSON`: scalar metadata, the derived `paths`
object, the resource-location array and the per-step attribute maps.
Optional fields model `QJsonObject::contains` checks on read. -/
structure JsonDescriptor where
  date? : Option String := none
  user? : Option String := none
  name? : Option String := none
  pathsBuild? : Option String := none
  pathsMatch? : Option String := none
  resources : List String := []
  steps : List (String × List (String × Variant)) := []
deriving DecidableEq

/-- Content of a stored file as far as the controller reads it. -/
inductive FileData where
  | malformed
  | descriptor (d : JsonDescriptor)
deriving DecidableEq

/-- Explicit filesystem state: existing directories, file contents, and the
oracle lists of paths on which directory creation / open-for-write fail. -/
structure FS where
  dirs : List String
  files : List (String × FileData)
  mkpathFail : List String
  openWriteFail : List String
deriving DecidableEq

def FS.dirExists (fs : FS) (p : String) : Bool :=
  decide (p ∈ fs.dirs)

def FS.readFile (fs : FS) (p : String) : Option FileData :=
  fs.files.lookup p

/-- Effect of a successful `QDir::mkpath p` (parent creation of other paths
is irrelevant to the controller, which never checks them). -/
def FS.mkpathApply (fs : FS) (p : String) : FS :=
  { fs with dirs := if fs.dirs.contains p then fs.dirs else p :: fs.dirs }

/-- Effect of opening a file for writing and writing `d` (truncating
semantics of `QIODevice::WriteOnly`). -/
def FS.writeFile (fs : FS) (p : String) (d : FileData) : FS :=
  { fs with files := (p, d) :: fs.files.filter (fun e => e.1 != p) }

/-- Effect of `QDir::removeRecursively` on directory `p`: the directory and
everything stored under it disappear. -/
def FS.removeRecursively (fs : FS) (p : String) : FS :=
  { fs with
    dirs := fs.dirs.filter (fun d => !(d == p || (p ++ "/").isPrefixOf d))
    files := fs.files.filter (fun e => !((p ++ "/").isPrefixOf e.1)) }

/-- In-memory Job controller state (class `Job`).  `status`, `completion`
and `thumbnail` live in the UI-facing collection in the source and are
reached through `model()->setData`; `hasModel` records whether that relay
is attached (`model()` non-null). -/
structure Job where
  url : String
  name : String
  user : String
  date : String
  steps : List Step
  images : List String
  thumbnail : String
  status : Int
  completion : Rat
  hasModel : Bool
deriving DecidableEq

/-- Fixed step template of `Job::createDefaultGraph`, parameterised by the
three attribute values (describer preset, meshing scale, initial pair). -/
def stepsWithValues (q sc p : Variant) : List Step :=
  [ { name := "feature_detection",
      attributes := [{ key := "describerPreset", name := "quality", type := 2,
                       value := q, options := ["Normal", "High", "Ultra"] }] },
    { name := "meshing",
      attributes := [{ key := "scale", name := "meshing scale", type := 1,
                       value := sc, min := 1, max := 10, step := 1 }] },
    { name := "sfm",
      attributes := [{ key := "initial_pair", name := "initial pair", type := 3,
                       value := p }] } ]

/-- Step list built by `Job::createDefaultGraph`, with its compiled-in
default values. -/
def createDefaultGraph : List Step :=
  stepsWithValues (.vstr "Normal") (.vint 2) (.vstrList ["", ""])

/-- State produced by the constructor `Job::Job(Project*)`: user from the
environment, name and directory derived from the creation timestamp, the
default graph, no resources.  Transient view fields start at their
defaults. -/
def Job.create (projectUrl user date : String) : Job :=
  { url := projectUrl ++ "/reconstructions/" ++ date
    name := date
    user := user
    date := date
    steps := createDefaultGraph
    images := []
    thumbnail := ""
    status := -1
    completion := 0
    hasModel := false }

/-- Search of the anonymous-namespace helper `getAttribute`: walk the steps
in order, skip steps whose name differs, and inside a matching step return
the first attribute with the given key; keep scanning later steps when a
matching step lacks the key. -/
def getAttributeAux (stepName attrKey : String) : List Step → Option (Step × Attribute)
  | [] => none
  | s :: rest =>
    if s.name != stepName then getAttributeAux stepName attrKey rest
    else
      match s.attributes.find? (fun a => a.key == attrKey) with
      | some a => some (s, a)
      | none => getAttributeAux stepName attrKey rest

def getAttribute (j : Job) (stepName attrKey : String) : Option (Step × Attribute) :=
  getAttributeAux stepName attrKey j.steps

/-- Query `Job::isPairA`: the url equals element 0 of the sfm step's
`initial_pair` value (guarded by `pair.count() > 0`). -/
def Job.isPairA (j : Job) (u : String) : Bool :=
  match getAttribute j "sfm" "initial_pair" with
  | none => false
  | some (_, att) =>
    match att.value.toStringList with
    | [] => false
    | x :: _ => x == u

/-- Query `Job::isPairB`: the url equals element 1 of the sfm step's
`initial_pair` value (guarded by `pair.count() > 1`). -/
def Job.isPairB (j : Job) (u : String) : Bool :=
  match getAttribute j "sfm" "initial_pair" with
  | none => false
  | some (_, att) =>
    match att.value.toStringList with
    | _ :: y :: _ => y == u
    | _ => false

/-- Semantics of `QUrl::fromLocalFile(s).isValid()`: an empty local path
yields an empty (invalid) QUrl, any other path a valid file URL. -/
def urlFromLocalFileValid (s : String) : Bool :=
  !(s == "")

/-- Query `Job::isPairValid`: the pair has two elements and both convert to
valid file URLs. -/
def Job.isPairValid (j : Job) : Bool :=
  match getAttribute j "sfm" "initial_pair" with
  | none => false
  | some (_, att) =>
    match att.value.toStringList with
    | x :: y :: _ => urlFromLocalFileValid x && urlFromLocalFileValid y
    | _ => false

/-- Slot `Job::selectThumbnail`: when a UI model is attached, push the
location of resource 0 (empty when the collection is empty, matching the
invalid QVariant read) through the ThumbnailRole relay. -/
def Job.selectThumbnail (j : Job) : Job :=
  if !j.hasModel then j
  else { j with thumbnail := j.images.headD "" }

/-- Appending one resource to the collection; the resulting countChanged
signal triggers `selectThumbnail` (the connected `save()` slot affects only
the filesystem and is modelled separately). -/
def Job.addResource (j : Job) (r : String) : Job :=
  Job.selectThumbnail { j with images := j.images ++ [r] }

/-- Slot `Job::readProcessOutput`: on abnormal exit set status Error(4);
on parse failure set status Error(4); on missing `completion`/`status`
fields change nothing; otherwise set completion and status to the reported
values via the `toDouble`/`toInt` conversions. -/
def Job.readProcessOutput (j : Job) (p : ProcOutcome) : Job :=
  if p.normalExit = false then { j with status := 4 }
  else
    match p.stdout with
    | none => { j with status := 4 }
    | some rep =>
      if (rep.lookup "completion").isSome = false
          || (rep.lookup "status").isSome = false then j
      else
        { j with
          completion := ((rep.lookup "completion").getD .undefinedv).toDouble
          status := ((rep.lookup "status").getD .undefinedv).toInt }

/-- Modelled from the spec: `Step::serializeToJSON` (Step.cpp is not in the
repository snapshot) writes, under the step's name, that step's attribute
key-to-value map. -/
def Step.serializeToJSON (s : Step) : String × List (String × Variant) :=
  (s.name, s.attributes.map (fun a => (a.key, a.value)))

/-- Descriptor built by `Job::serializeToJSON`: date, user, name, the
derived paths object, the resource locations in collection order
(`Resource::serializeToJSON`, modelled from the spec as writing the
location), and the per-step attribute maps. -/
def Job.serializeToJSON (j : Job) : JsonDescriptor :=
  { date? := some j.date
    user? := some j.user
    name? := some j.name
    pathsBuild? := some (j.url ++ "/build")
    pathsMatch? := some (j.url ++ "/build/matches")
    resources := j.images
    steps := j.steps.map Step.serializeToJSON }

/-- Modelled from the spec: `Step::deserializeFromJSON` (Step.cpp is not in
the repository snapshot) looks the step's own name up in the descriptor's
steps object and applies the attribute values found there; attributes or
steps absent from the descriptor keep their current values. -/
def Step.deserializeFromJSON (s : Step) (stepsObj : List (String × List (String × Variant))) : Step :=
  match stepsObj.lookup s.name with
  | none => s
  | some m =>
    { s with attributes := s.attributes.map (fun a =>
        match m.lookup a.key with
        | some v => { a with value := v }
        | none => a) }

/-- Method `Job::deserializeFromJSON`: read `user` and `name` when present,
append the descriptor's resources to the collection, and let every step of
the fixed template deserialize itself from the steps object.  The
surrounding autoSaveOff/autoSaveOn calls only suspend observer wiring and
have no state effect here. -/
def Job.deserializeFromJSON (j : Job) (d : JsonDescriptor) : Job :=
  let j1 := match d.user? with
    | some u => { j with user := u }
    | none => j
  let j2 := match d.name? with
    | some n => { j1 with name := n }
    | none => j1
  let j3 := { j2 with images := j2.images ++ d.resources }
  { j3 with steps := j3.steps.map (fun s => s.deserializeFromJSON d.steps) }

/-- Method `Job::isStoredOnDisk`: the descriptor file exists. -/
def Job.isStoredOnDisk (j : Job) (fs : FS) : Bool :=
  (fs.readFile (j.url ++ "/job.json")).isSome

/-- Method `Job::isStarted`: the build directory exists and the descriptor
file exists. -/
def Job.isStarted (j : Job) (fs : FS) : Bool :=
  fs.dirExists (j.url ++ "/build") && j.isStoredOnDisk fs

/-- Method `Job::isStartable`: at least two registered resources. -/
def Job.isStartable (j : Job) : Bool :=
  if j.images.length < 2 then false else true

/-- Method `Job::save`: refuse when the job is already started; otherwise
serialize, create the job directory (failure leaves the filesystem as it
was), open the descriptor for writing (failure leaves the file as it was)
and write it. -/
def Job.save (j : Job) (fs : FS) : Bool × FS :=
  if j.isStarted fs then (false, fs)
  else
    let d := j.serializeToJSON
    if fs.mkpathFail.contains j.url then (false, fs)
    else
      let fs1 := fs.mkpathApply j.url
      if fs1.openWriteFail.contains (j.url ++ "/job.json") then (false, fs1)
      else (true, fs1.writeFile (j.url ++ "/job.json") (.descriptor d))

/-- Method `Job::load(const QUrl&)`: fail when the directory does not
exist; otherwise assign the url, then fail when the descriptor cannot be
read or does not parse as JSON; otherwise deserialize it into this
instance. -/
def Job.load (j : Job) (fs : FS) (u : String) : Bool × Job :=
  if !(fs.dirExists u) then (false, j)
  else
    let j1 := { j with url := u }
    match fs.readFile (u ++ "/job.json") with
    | none => (false, j1)
    | some .malformed => (false, j1)
    | some (.descriptor d) => (true, j1.deserializeFromJSON d)

/-- Method `Job::start` as far as it touches the filesystem: save (must
succeed), check startability, create the build directory, then run the
start worker synchronously; `waitOk` is the outcome of
`QProcess::waitForFinished`, and on failure the build directory is removed
again.  The final `refresh()` on success changes no filesystem state and is
modelled separately. -/
def Job.start (j : Job) (fs : FS) (waitOk : Bool) : Bool × FS :=
  match j.save fs with
  | (false, fs1) => (false, fs1)
  | (true, fs1) =>
    if !j.isStartable then (false, fs1)
    else
      let buildP := j.url ++ "/build"
      if fs1.mkpathFail.contains buildP then (false, fs1)
      else
        let fs2 := fs1.mkpathApply buildP
        if !waitOk then (false, fs2.removeRecursively buildP)
        else (true, fs2)

/-- Method `Job::refresh`: when the job is not started, force the status to
NotStarted(-1) and return without invoking the status worker; otherwise
invoke it and deliver its outcome to `readProcessOutput`.  The returned
Bool records whether the external status program was invoked. -/
def Job.refresh (j : Job) (fs : FS) (p : ProcOutcome) : Job × Bool :=
  if !(j.isStarted fs) then ({ j with status := -1 }, false)
  else (j.readProcessOutput p, true)

/-- Sample job used by concrete witnesses: a freshly constructed job. -/
def job0 : Job := Job.create "/proj" "alice" "20140101_000000"

/-- Sample empty filesystem used by concrete witnesses. -/
def fs0 : FS := { dirs := [], files := [], mkpathFail := [], openWriteFail := [] }

/-- Sample filesystem in which `job0` is started: its build directory and
its descriptor file both exist. -/
def fsStarted : FS :=
  { dirs := ["/proj/reconstructions/20140101_000000/build"]
    files := [("/proj/reconstructions/20140101_000000/job.json", .malformed)]
    mkpathFail := []
    openWriteFail := [] }

/-- Sample status report matching the spec's worker example. -/
def rep42 : List (String × JsonVal) :=
  [("completion", .num 0.42), ("status", .num 2)]

/-- Sample `initial_pair` attribute holding two image locations. -/
def pairAtt : Attribute :=
  { key := "initial_pair", name := "initial pair", type := 3,
    value := .vstrList ["/img/1.jpg", "/img/2.jpg"] }

/-- Sample sfm step holding `pairAtt`. -/
def pairStep : Step := { name := "sfm", attributes := [pairAtt] }

/-- Sample job whose sfm initial pair is `["/img/1.jpg", "/img/2.jpg"]`. -/
def jPair : Job := { job0 with steps := [pairStep] }

/-- Sample job with no sfm step at all. -/
def jNoSfm : Job := { job0 with steps := [] }

/-- Sample `initial_pair` attribute whose value is an empty list. -/
def shortAtt : Attribute :=
  { key := "initial_pair", name := "initial pair", type := 3,
    value := .vstrList [] }

/-- Sample sfm step holding `shortAtt`. -/
def shortStep : Step := { name := "sfm", attributes := [shortAtt] }

/-- Sample job whose sfm initial pair value is an empty list. -/
def jShort : Job := { job0 with steps := [shortStep] }

/-- Sample filesystem in which only the directory `/new` exists. -/
def fsNew : FS := { dirs := ["/new"], files := [], mkpathFail := [], openWriteFail := [] }

/-- Sample fully populated job used for the round-trip witness. -/
def jFull : Job :=
  { url := "/p/r/x", name := "myjob", user := "bob", date := "20150101_101010",
    steps := stepsWithValues (.vstr "High") (.vint 7)
      (.vstrList ["/img/1.jpg", "/img/2.jpg"]),
    images := ["/img/1.jpg", "/img/2.jpg"],
    thumbnail := "", status := -1, completion := 0, hasModel := false }

/-- Appending a nonempty suffix to a string changes it; used to separate
the job directory from its build subdirectory. -/
theorem append_build_ne (s : String) : s ++ "/build" ≠ s := by
  intro h
  have hlen := congrArg String.length h
  rw [String.length_append] at hlen
  have h6 : "/build".length = 6 := rfl
  omega

/-- Creating one directory does not affect the existence of any other
directory. -/
theorem dirExists_mkpathApply (fs : FS) (q p : String) (hp : p ≠ q) :
    (fs.mkpathApply q).dirExists p = fs.dirExists p := by
  unfold FS.mkpathApply FS.dirExists
  by_cases h : q ∈ fs.dirs
  · simp [h]
  · simp [h, List.mem_cons, hp]

/-- Writing a file does not affect directory existence. -/
theorem dirExists_writeFile (fs : FS) (a : String) (b : FileData) (p : String) :
    (fs.writeFile a b).dirExists p = fs.dirExists p := rfl

/-- Across any `save()` call, the existence of every directory other than
the job directory itself is preserved. -/
theorem save_dirExists (j : Job) (fs : FS) (p : String) (hp : p ≠ j.url) :
    ((j.save fs).2).dirExists p = fs.dirExists p := by
  unfold Job.save
  by_cases h1 : j.isStarted fs = true
  · simp [h1]
  · by_cases h2 : j.url ∈ fs.mkpathFail
    · simp [h1, h2]
    · by_cases h3 : (j.url ++ "/job.json") ∈ (fs.mkpathApply j.url).openWriteFail
      · simp [h1, h2, h3, dirExists_mkpathApply fs j.url p hp]
      · simp [h1, h2, h3, dirExists_writeFile, dirExists_mkpathApply fs j.url p hp]

/-- C2: for every Job for which `isStarted` is true, `save()` returns
failure and leaves the filesystem (in particular the existing descriptor
file) completely unchanged, regardless of the in-memory state. -/
theorem save_noop_when_started (j : Job) (fs : FS) (h : j.isStarted fs = true) :
    j.save fs = (false, fs) := by
  simp [Job.save, h]

/-- Witness for C2 at a concrete started job. -/
theorem save_noop_when_started_witness :
    job0.isStarted fsStarted = true ∧ job0.save fsStarted = (false, fsStarted) :=
  ⟨by decide, save_noop_when_started job0 fsStarted (by decide)⟩

/-- C4: on normal worker exit with parseable stdout, a report missing the
`completion` or `status` field leaves the Job entirely unchanged; a report
carrying both (numeric completion, whole-number status, per the worker
contract) sets completion and status to exactly the reported values. -/
theorem status_report_update (j : Job) (rep : List (String × JsonVal)) :
    ((rep.lookup "completion" = none ∨ rep.lookup "status" = none) →
       j.readProcessOutput ⟨true, some rep⟩ = j) ∧
    (∀ c s : Rat, rep.lookup "completion" = some (.num c) →
       rep.lookup "status" = some (.num s) → s.den = 1 →
       (j.readProcessOutput ⟨true, some rep⟩).completion = c ∧
       (j.readProcessOutput ⟨true, some rep⟩).status = s.num) := by
  constructor
  · rintro (h | h) <;> simp [Job.readProcessOutput, h]
  · intro c s hc hs hsden
    simp [Job.readProcessOutput, hc, hs, JsonVal.toDouble, JsonVal.toInt, hsden]

/-- Witness for C4: the report `{"completion": 0.42, "status": 2}` yields
completion 0.42 and status 2. -/
theorem status_report_update_witness :
    rep42.lookup "completion" = some (.num 0.42) ∧
    rep42.lookup "status" = some (.num 2) ∧
    (2 : Rat).den = 1 ∧
    (job0.readProcessOutput ⟨true, some rep42⟩).completion = 0.42 ∧
    (job0.readProcessOutput ⟨true, some rep42⟩).status = (2 : Rat).num :=
  ⟨rfl, rfl, rfl,
   ((status_report_update job0 rep42).2 0.42 2 rfl rfl rfl).1,
   ((status_report_update job0 rep42).2 0.42 2 rfl rfl rfl).2⟩

/-- C5: when the status worker terminates abnormally, and likewise when its
stdout fails to parse as JSON, the status is set to Error(4) and the
completion value is left unchanged. -/
theorem status_error_cases (j : Job) (out : Option (List (String × JsonVal))) :
    ((j.readProcessOutput ⟨false, out⟩).status = 4 ∧
      (j.readProcessOutput ⟨false, out⟩).completion = j.completion) ∧
    ((j.readProcessOutput ⟨true, none⟩).status = 4 ∧
      (j.readProcessOutput ⟨true, none⟩).completion = j.completion) := by
  simp [Job.readProcessOutput]

/-- C7: with the UI model attached, whenever the resource collection's size
changes and it is non-empty the thumbnail becomes the first resource's
location; adding to an empty collection sets the thumbnail to that
resource, and adding a second one leaves it pointing at the first. -/
theorem thumbnail_selection (j : Job) (h : j.hasModel = true) :
    (j.images ≠ [] → (j.selectThumbnail).thumbnail = j.images.headD "") ∧
    (∀ a b : String, j.images = [] →
       ((j.addResource a).thumbnail = a ∧
        ((j.addResource a).addResource b).thumbnail = a)) := by
  constructor
  · intro hne
    simp [Job.selectThumbnail, h]
  · intro a b hi
    simp [Job.addResource, Job.selectThumbnail, h, hi]

/-- Witness for C7 at a concrete job with a model attached. -/
theorem thumbnail_selection_witness :
    ({ job0 with hasModel := true }).hasModel = true ∧
    ({ job0 with hasModel := true }).images = [] ∧
    (({ job0 with hasModel := true }).addResource "/img/a.jpg").thumbnail = "/img/a.jpg" ∧
    ((({ job0 with hasModel := true }).addResource "/img/a.jpg").addResource "/img/b.jpg").thumbnail
      = "/img/a.jpg" :=
  ⟨by decide, by decide,
   ((thumbnail_selection { job0 with hasModel := true } (by decide)).2
      "/img/a.jpg" "/img/b.jpg" (by decide)).1,
   ((thumbnail_selection { job0 with hasModel := true } (by decide)).2
      "/img/a.jpg" "/img/b.jpg" (by decide)).2⟩

/-- C8: when the sfm step's `initial_pair` attribute holds the pair
`[a, b]`, `isPairA u` is true exactly when `u = a` and `isPairB u` exactly
when `u = b`; when the sfm step or the attribute is absent, `isPairA`,
`isPairB` and `isPairValid` all return false. -/
theorem pair_lookup (j : Job) (u a b : String) :
    (∀ st att, getAttribute j "sfm" "initial_pair" = some (st, att) →
       att.value = Variant.vstrList [a, b] →
       ((j.isPairA u = true ↔ u = a) ∧ (j.isPairB u = true ↔ u = b))) ∧
    (getAttribute j "sfm" "initial_pair" = none →
       (j.isPairA u = false ∧ j.isPairB u = false ∧ j.isPairValid = false)) := by
  constructor
  · intro st att hga hval
    simp only [Job.isPairA, Job.isPairB, hga, hval, Variant.toStringList, beq_iff_eq]
    exact ⟨eq_comm, eq_comm⟩
  · intro hga
    simp [Job.isPairA, Job.isPairB, Job.isPairValid, hga]

/-- Witness for C8 at the spec's example pair and at a job without an sfm
step. -/
theorem pair_lookup_witness :
    getAttribute jPair "sfm" "initial_pair" = some (pairStep, pairAtt) ∧
    pairAtt.value = Variant.vstrList ["/img/1.jpg", "/img/2.jpg"] ∧
    (jPair.isPairA "/img/1.jpg" = true ↔ ("/img/1.jpg" : String) = "/img/1.jpg") ∧
    (jPair.isPairB "/img/2.jpg" = true ↔ ("/img/2.jpg" : String) = "/img/2.jpg") ∧
    getAttribute jNoSfm "sfm" "initial_pair" = none ∧
    (jNoSfm.isPairA "/img/1.jpg" = false ∧ jNoSfm.isPairB "/img/1.jpg" = false ∧
      jNoSfm.isPairValid = false) :=
  ⟨by decide, by decide,
   ((pair_lookup jPair "/img/1.jpg" "/img/1.jpg" "/img/2.jpg").1
      pairStep pairAtt (by decide) (by decide)).1,
   ((pair_lookup jPair "/img/2.jpg" "/img/1.jpg" "/img/2.jpg").1
      pairStep pairAtt (by decide) (by decide)).2,
   by decide,
   (pair_lookup jNoSfm "/img/1.jpg" "/img/1.jpg" "/img/2.jpg").2 (by decide)⟩

/-- C9: for every Job that is not started, `refresh()` forces the status to
NotStarted(-1) and returns without invoking the external status program. -/
theorem refresh_not_started (j : Job) (fs : FS) (p : ProcOutcome)
    (h : j.isStarted fs = false) :
    j.refresh fs p = ({ j with status := -1 }, false) := by
  simp [Job.refresh, h]

/-- Witness for C9 at a concrete unstarted job. -/
theorem refresh_not_started_witness :
    job0.isStarted fs0 = false ∧
    job0.refresh fs0 ⟨true, none⟩ = ({ job0 with status := -1 }, false) :=
  ⟨by decide, refresh_not_started job0 fs0 ⟨true, none⟩ (by decide)⟩

/-- C10: when the sfm `initial_pair` attribute exists but its value
converts to a list that is too short, the pair accessors return false
instead of failing: `isPairA` on an empty list, `isPairB` and `isPairValid`
on lists of fewer than two elements. -/
theorem pair_lookup_total (j : Job) (st : Step) (att : Attribute)
    (h : getAttribute j "sfm" "initial_pair" = some (st, att)) :
    (att.value.toStringList = [] → ∀ u, j.isPairA u = false) ∧
    (att.value.toStringList.length < 2 →
       (∀ u, j.isPairB u = false) ∧ j.isPairValid = false) := by
  constructor
  · intro hl u
    simp [Job.isPairA, h, hl]
  · intro hl
    rcases hml : att.value.toStringList with _ | ⟨x, _ | ⟨y, r⟩⟩
    · constructor
      · intro u; simp [Job.isPairB, h, hml]
      · simp [Job.isPairValid, h, hml]
    · constructor
      · intro u; simp [Job.isPairB, h, hml]
      · simp [Job.isPairValid, h, hml]
    · rw [hml] at hl
      simp at hl
      omega

/-- Witness for C10 at a concrete job whose initial pair value is an empty
list. -/
theorem pair_lookup_total_witness :
    getAttribute jShort "sfm" "initial_pair" = some (shortStep, shortAtt) ∧
    shortAtt.value.toStringList = [] ∧
    shortAtt.value.toStringList.length < 2 ∧
    jShort.isPairA "/img/1.jpg" = false ∧
    jShort.isPairB "/img/1.jpg" = false ∧ jShort.isPairValid = false :=
  ⟨by decide, by decide, by decide,
   (pair_lookup_total jShort shortStep shortAtt (by decide)).1 (by decide) "/img/1.jpg",
   ((pair_lookup_total jShort shortStep shortAtt (by decide)).2 (by decide)).1 "/img/1.jpg",
   ((pair_lookup_total jShort shortStep shortAtt (by decide)).2 (by decide)).2⟩

/-- C1: deserializing the descriptor produced by serializing a Job into a
freshly constructed Job (default template, empty resource collection)
reproduces the name, the user, the resource collection in order, and every
attribute value of every step of the fixed template. -/
theorem serialization_roundtrip (f j : Job) (q sc p : Variant)
    (hf : f.steps = createDefaultGraph) (hi : f.images = [])
    (hj : j.steps = stepsWithValues q sc p) :
    (f.deserializeFromJSON j.serializeToJSON).name = j.name ∧
    (f.deserializeFromJSON j.serializeToJSON).user = j.user ∧
    (f.deserializeFromJSON j.serializeToJSON).images = j.images ∧
    (f.deserializeFromJSON j.serializeToJSON).steps = j.steps := by
  obtain ⟨fur, fnm, fus, fdt, fst, fim, fth, fsc, fcp, fhm⟩ := f
  obtain ⟨jur, jnm, jus, jdt, jst, jim, jth, jsc, jcp, jhm⟩ := j
  simp only at hf hi hj
  subst hf hi hj
  simp [Job.deserializeFromJSON, Job.serializeToJSON, Step.serializeToJSON,
        Step.deserializeFromJSON, createDefaultGraph, stepsWithValues, List.lookup]

/-- Witness for C1 at a concrete populated job deserialized into a
concrete fresh job. -/
theorem serialization_roundtrip_witness :
    job0.steps = createDefaultGraph ∧ job0.images = [] ∧
    jFull.steps = stepsWithValues (.vstr "High") (.vint 7)
      (.vstrList ["/img/1.jpg", "/img/2.jpg"]) ∧
    (job0.deserializeFromJSON jFull.serializeToJSON).name = jFull.name ∧
    (job0.deserializeFromJSON jFull.serializeToJSON).user = jFull.user ∧
    (job0.deserializeFromJSON jFull.serializeToJSON).images = jFull.images ∧
    (job0.deserializeFromJSON jFull.serializeToJSON).steps = jFull.steps :=
  ⟨by decide, by decide, by decide,
   (serialization_roundtrip job0 jFull (.vstr "High") (.vint 7)
      (.vstrList ["/img/1.jpg", "/img/2.jpg"]) (by decide) (by decide) (by decide)).1,
   (serialization_roundtrip job0 jFull (.vstr "High") (.vint 7)
      (.vstrList ["/img/1.jpg", "/img/2.jpg"]) (by decide) (by decide) (by decide)).2.1,
   (serialization_roundtrip job0 jFull (.vstr "High") (.vint 7)
      (.vstrList ["/img/1.jpg", "/img/2.jpg"]) (by decide) (by decide) (by decide)).2.2.1,
   (serialization_roundtrip job0 jFull (.vstr "High") (.vint 7)
      (.vstrList ["/img/1.jpg", "/img/2.jpg"]) (by decide) (by decide) (by decide)).2.2.2⟩

/-- C3 counterexample: starting a fresh job with zero resources on an empty
filesystem returns failure but does have a side effect: the initial
`save()` has created the job directory and written the descriptor, so the
filesystem is not left unchanged. -/
theorem start_side_effect_counterexample :
    (job0.start fs0 true).1 = false ∧ (job0.start fs0 true).2 ≠ fs0 := by
  decide

/-- C3 amended: `isStartable()` is false exactly for fewer than 2
resources, and with fewer than 2 resources `start()` returns failure and
leaves the existence of the `build/` directory unchanged (no `build/`
directory is left behind), although the initial `save()` may have written
the descriptor. -/
theorem start_insufficient_resources (j : Job) (fs : FS) (w : Bool) :
    (j.isStartable = false ↔ j.images.length < 2) ∧
    (j.images.length < 2 →
       (j.start fs w).1 = false ∧
       ((j.start fs w).2).dirExists (j.url ++ "/build")
         = fs.dirExists (j.url ++ "/build")) := by
  constructor
  · unfold Job.isStartable
    by_cases h : j.images.length < 2 <;> simp [h]
  · intro h
    have hns : j.isStartable = false := by simp [Job.isStartable, h]
    have hdir := save_dirExists j fs (j.url ++ "/build") (append_build_ne j.url)
    unfold Job.start
    rcases hs : j.save fs with ⟨ok, fs1⟩
    rw [hs] at hdir
    cases ok
    · simpa using hdir
    · simp only [hns, Bool.not_false, if_true]
      simpa using hdir

/-- Witness for the amended C3 at a concrete fresh job with zero
resources. -/
theorem start_insufficient_resources_witness :
    job0.images.length < 2 ∧
    (job0.start fs0 true).1 = false ∧
    ((job0.start fs0 true).2).dirExists (job0.url ++ "/build")
      = fs0.dirExists (job0.url ++ "/build") :=
  ⟨by decide,
   ((start_insufficient_resources job0 fs0 true).2 (by decide)).1,
   ((start_insufficient_resources job0 fs0 true).2 (by decide)).2⟩

/-- C6 counterexample: loading from a directory that exists but contains no
readable `job.json` returns failure, yet the job's in-memory state is not
left unchanged: its storage url has been reassigned. -/
theorem load_url_mutation_counterexample :
    (job0.load fsNew "/new").1 = false ∧ (job0.load fsNew "/new").2 ≠ job0 :=
  ⟨by decide, fun h => absurd (congrArg Job.url h) (by decide)⟩

/-- C6 amended: `load(url)` returns failure when the directory does not
exist (state fully unchanged), and when the directory exists but the
descriptor cannot be read or is malformed JSON (all state unchanged except
that the storage url has already been reassigned to the argument). -/
theorem load_failure_behavior (j : Job) (fs : FS) (u : String) :
    (fs.dirExists u = false → j.load fs u = (false, j)) ∧
    (fs.dirExists u = true → fs.readFile (u ++ "/job.json") = none →
       j.load fs u = (false, { j with url := u })) ∧
    (fs.dirExists u = true → fs.readFile (u ++ "/job.json") = some .malformed →
       j.load fs u = (false, { j with url := u })) := by
  refine ⟨fun h => ?_, fun h1 h2 => ?_, fun h1 h2 => ?_⟩
  · simp [Job.load, h]
  · simp [Job.load, h1, h2]
  · simp [Job.load, h1, h2]

/-- Witness for the amended C6 at a concrete job and filesystem. -/
theorem load_failure_behavior_witness :
    fs0.dirExists "/nowhere" = false ∧
    job0.load fs0 "/nowhere" = (false, job0) ∧
    fsNew.dirExists "/new" = true ∧
    fsNew.readFile ("/new" ++ "/job.json") = none ∧
    job0.load fsNew "/new" = (false, { job0 with url := "/new" }) :=
  ⟨by decide,
   (load_failure_behavior job0 fs0 "/nowhere").1 (by decide),
   by decide, by decide,
   (load_failure_behavior job0 fsNew "/new").2.1 (by decide) (by decide)⟩

end Meshroom
